import Mathlib

/-!
Verification development for the workout-app authentication core.

Shallow embedding of the Go source:
* `internal/domain/user/user.go`          — `User`, `EmailVerification`
* `internal/repository/postgres`          — store operations as pure functions on `Store`
* `pkg/password`                          — bcrypt collaborator, modelled deterministically
* `pkg/verification` (VerifyCode)         — the verification engine
* `pkg/jwt`                               — token service (HMAC signing modelled symbolically)
* `internal/usecase/auth` + `internal/usecase/user` — the orchestrator use cases

Machine integers of the source are embedded as `Int`/`Nat`; `time.Time` as `Int`
(instants on a common clock); UUIDs as `Nat`. Fallible operations return
`Option`/`Except`. Stateful repository calls are explicit state passing on `Store`.
-/

namespace WorkoutApp

/-- Embeds `domain.User` (internal/domain/user/user.go). Profile fields not used by
any claim (first/last name, birth date, gender, avatar) are omitted; role and
training level are kept as strings since the token claims snapshot them. -/
structure User where
  id : Nat
  email : String
  passwordHash : String
  username : String
  role : String
  trainingLevel : String
  isEmailVerified : Bool
  updatedAt : Int
  deletedAt : Option Int
deriving Repr, DecidableEq

/-- Embeds `domain.EmailVerification` (with the `NewEmail` column added by migration
000004): `newEmail = none` means the record verifies the registration email,
`some e` means it is an email-change record targeting `e`. -/
structure EmailVerification where
  id : Nat
  userId : Nat
  codeHash : String
  expiresAt : Int
  attempts : Int
  maxAttempts : Int
  createdAt : Int
  newEmail : Option String
deriving Repr, DecidableEq

/-- The persistent store: `users` and `email_verifications` tables. -/
structure Store where
  users : List User
  verifs : List EmailVerification
deriving Repr, DecidableEq

/-- Repository error kinds (internal/repository/interfaces): `ErrNotFound`,
`ErrEmailExists`, `ErrUsernameExists`. -/
inductive RepoErr
  | notFound
  | emailExists
  | usernameExists
deriving Repr, DecidableEq

/-- A user row is visible iff not soft-deleted (`deleted_at IS NULL`). -/
def isActiveUser (u : User) : Bool :=
  u.deletedAt.isNone

/-- `UserRepository.GetByEmail`: first active row with the email, else `ErrNotFound`
(modelled as `none`). -/
def getUserByEmail (st : Store) (email : String) : Option User :=
  st.users.find? (fun u => isActiveUser u && u.email == email)

/-- `UserRepository.GetByID`: active row with the id, else not found. -/
def getUserByID (st : Store) (uid : Nat) : Option User :=
  st.users.find? (fun u => isActiveUser u && u.id == uid)

/-- `UserRepository.GetByUsername`: active row with the username, else not found. -/
def getUserByUsername (st : Store) (username : String) : Option User :=
  st.users.find? (fun u => isActiveUser u && u.username == username)

/-- `UserRepository.Create`: the partial unique indexes on active users reject a
duplicate email (`ErrEmailExists`) or username (`ErrUsernameExists`), otherwise
the row is inserted. -/
def createUser (st : Store) (u : User) : Except RepoErr Store :=
  if st.users.any (fun w => isActiveUser w && w.email == u.email) then
    .error .emailExists
  else if st.users.any (fun w => isActiveUser w && w.username == u.username) then
    .error .usernameExists
  else
    .ok { st with users := st.users ++ [u] }

/-- `UserRepository.Update`: matches `id = ? AND deleted_at IS NULL`; duplicate key
maps to `ErrEmailExists`/`ErrUsernameExists`; zero rows affected is `ErrNotFound`. -/
def updateUser (st : Store) (u : User) : Except RepoErr Store :=
  if !(st.users.any (fun w => isActiveUser w && w.id == u.id)) then
    .error .notFound
  else if st.users.any (fun w => isActiveUser w && !(w.id == u.id) && w.email == u.email) then
    .error .emailExists
  else if st.users.any (fun w => isActiveUser w && !(w.id == u.id) && w.username == u.username) then
    .error .usernameExists
  else
    .ok { st with users := st.users.map (fun w => if w.id == u.id then u else w) }

/-- `EmailVerificationRepository.Create`: plain insert. -/
def createVerif (st : Store) (v : EmailVerification) : Store :=
  { st with verifs := st.verifs ++ [v] }

/-- `EmailVerificationRepository.GetActiveByUserID`: `user_id = ? AND
expires_at > NOW() AND new_email IS NULL`. -/
def getActiveByUserID (st : Store) (now : Int) (uid : Nat) : Option EmailVerification :=
  st.verifs.find? (fun v => v.userId == uid && decide (now < v.expiresAt) && v.newEmail.isNone)

/-- `EmailVerificationRepository.GetActiveEmailChangeByUserID`: `user_id = ? AND
new_email IS NOT NULL AND expires_at > NOW()`. -/
def getActiveEmailChangeByUserID (st : Store) (now : Int) (uid : Nat) :
    Option EmailVerification :=
  st.verifs.find? (fun v => v.userId == uid && v.newEmail.isSome && decide (now < v.expiresAt))

/-- `EmailVerificationRepository.GetByID`. -/
def getVerifByID (st : Store) (vid : Nat) : Option EmailVerification :=
  st.verifs.find? (fun v => v.id == vid)

/-- `EmailVerificationRepository.IncrementAttempts`: atomic
`SET attempts = attempts + 1 WHERE id = ?`; `ErrNotFound` (here `none`) when no
row matched. -/
def incrementAttempts (st : Store) (vid : Nat) : Option Store :=
  if st.verifs.any (fun v => v.id == vid) then
    some { st with
      verifs := st.verifs.map (fun v =>
        if v.id == vid then { v with attempts := v.attempts + 1 } else v) }
  else
    none

/-- `EmailVerificationRepository.DeleteByUserID`: removes every record of the user. -/
def deleteVerifsByUserID (st : Store) (uid : Nat) : Store :=
  { st with verifs := st.verifs.filter (fun v => !(v.userId == uid)) }

/-- `EmailVerificationRepository.DeleteEmailChangeByUserID`: removes the records of
the user with `new_email IS NOT NULL`. -/
def deleteEmailChangeByUserID (st : Store) (uid : Nat) : Store :=
  { st with verifs := st.verifs.filter (fun v => !(v.userId == uid && v.newEmail.isSome)) }

/-- Deterministic model of the bcrypt collaborator `pkg/password.Hash` (an
out-of-scope primitive per the spec): a digest is a tagged copy of the secret,
making `Compare` the exact inversion the use cases rely on. -/
def bcryptHash (raw : String) : String :=
  "bc2a$" ++ raw

/-- `pkg/password.Compare hash raw`: succeeds (`true`) iff the digest is the hash of
`raw`. -/
def passwordCompare (hash raw : String) : Bool :=
  hash == bcryptHash raw

/-- `verification.VerificationResult` (pkg/verification). -/
inductive VerificationResult
  | success
  | codeInvalid
  | attemptsExceeded
  | expired
deriving Repr, DecidableEq

/-- Embeds `verification.VerifyCode` (pkg/verification): TTL short-circuit, hash
compare, atomic increment, then the exceeded-threshold decision from the record
re-read from the store. `verification` is the in-memory record the caller starts
with; the store may have moved since it was read. Returns
`(result, updated record, new store)`; `none` embeds the propagated repository
error when the increment or the re-read fails. -/
def VerifyCode (now : Int) (verification : EmailVerification) (code : String)
    (st : Store) : Option (VerificationResult × Option EmailVerification × Store) :=
  if now > verification.expiresAt then
    some (.expired, none, st)
  else if passwordCompare verification.codeHash code then
    some (.success, some verification, st)
  else
    match incrementAttempts st verification.id with
    | none => none
    | some st1 =>
      match getVerifByID st1 verification.id with
      | none => none
      | some updated =>
        if updated.attempts ≥ updated.maxAttempts then
          some (.attemptsExceeded, some updated, st1)
        else
          some (.codeInvalid, some updated, st1)

/-- JWT signing algorithm family: the source only ever signs with `HS256` and the
parser only accepts the symmetric HMAC family. -/
inductive SigAlg
  | hs256
  | other
deriving Repr, DecidableEq

/-- Embeds `jwt.Claims` (pkg/jwt): profile snapshot plus registered claims. The Go
`UserID` (the `sub` string) and `Subject` both carry the user id; here both are
the typed id. `jti` is set only on refresh tokens. -/
structure Claims where
  userId : Nat
  email : String
  username : String
  role : String
  trainingLevel : String
  emailVerified : Bool
  issuer : String
  subject : Nat
  issuedAt : Int
  expiresAt : Int
  jti : Option String
deriving Repr, DecidableEq

/-- A signed token: the claims bundle together with the signature evidence — the
algorithm it was signed under and the secret that produced the signature.
`SignedString` with secret `s` yields `secret = s`; verification against secret
`s` succeeds exactly when the stored secret equals `s` (HMAC soundness). -/
structure SignedToken where
  claims : Claims
  alg : SigAlg
  secret : String
deriving Repr, DecidableEq

/-- Embeds `config.JWTConfig`. -/
structure JWTConfig where
  accessSecret : String
  refreshSecret : String
  accessTTL : Int
  refreshTTL : Int
  issuer : String
deriving Repr, DecidableEq

/-- Embeds `jwt.service.GenerateAccessToken`: short-TTL claims snapshot signed
HS256 with the access secret. -/
def GenerateAccessToken (cfg : JWTConfig) (now : Int) (u : User) : SignedToken :=
  { claims :=
      { userId := u.id
        email := u.email
        username := u.username
        role := u.role
        trainingLevel := u.trainingLevel
        emailVerified := u.isEmailVerified
        issuer := cfg.issuer
        subject := u.id
        issuedAt := now
        expiresAt := now + cfg.accessTTL
        jti := none }
    alg := .hs256
    secret := cfg.accessSecret }

/-- Embeds `jwt.service.GenerateRefreshToken`: long-TTL claims signed HS256 with
the refresh secret and carrying a fresh `jti` (the random draw is passed in).
The Go refresh claims do not snapshot `TrainingLevel`. -/
def GenerateRefreshToken (cfg : JWTConfig) (now : Int) (jti : String) (u : User) :
    SignedToken :=
  { claims :=
      { userId := u.id
        email := u.email
        username := u.username
        role := u.role
        trainingLevel := ""
        emailVerified := u.isEmailVerified
        issuer := cfg.issuer
        subject := u.id
        issuedAt := now
        expiresAt := now + cfg.refreshTTL
        jti := some jti }
    alg := .hs256
    secret := cfg.refreshSecret }

/-- Token-validation failures surfaced by `jwt.parseToken`. -/
inductive JWTErr
  | signatureInvalid
  | expired
  | invalidIssuer
deriving Repr, DecidableEq

/-- Embeds `jwt.service.parseToken`: rejects a non-HMAC signing method
(`ErrTokenSignatureInvalid`), a signature under a different secret, an expired
token (jwt/v5 requires `now < exp`), and an issuer mismatch when both the token
issuer and the configured issuer are non-empty. -/
def parseToken (cfgIssuer : String) (now : Int) (tok : SignedToken) (secret : String) :
    Except JWTErr Claims :=
  if tok.alg ≠ SigAlg.hs256 then
    .error .signatureInvalid
  else if tok.secret ≠ secret then
    .error .signatureInvalid
  else if ¬ (now < tok.claims.expiresAt) then
    .error .expired
  else if tok.claims.issuer ≠ "" ∧ cfgIssuer ≠ "" ∧ tok.claims.issuer ≠ cfgIssuer then
    .error .invalidIssuer
  else
    .ok tok.claims

/-- Embeds `jwt.service.ParseAccessToken`. -/
def ParseAccessToken (cfg : JWTConfig) (now : Int) (tok : SignedToken) :
    Except JWTErr Claims :=
  parseToken cfg.issuer now tok cfg.accessSecret

/-- Embeds `jwt.service.ParseRefreshToken`. -/
def ParseRefreshToken (cfg : JWTConfig) (now : Int) (tok : SignedToken) :
    Except JWTErr Claims :=
  parseToken cfg.issuer now tok cfg.refreshSecret

/-- Business-rule and infrastructure error kinds of the two usecase packages
(`internal/usecase/auth`, `internal/usecase/user`). `repoErr` embeds a repository
error returned to the caller unchanged; `argRequired` the guard on empty
arguments; `sendFailed` a wrapped email-delivery failure. -/
inductive AuthErr
  | argRequired
  | emailAlreadyVerified
  | verificationCodeNotFound
  | verificationCodeInvalid
  | verificationAttemptsExceeded
  | emailNotVerified
  | invalidCredentials
  | invalidRefreshToken
  | emailSameAsCurrent
  | notEmailChangeCode
  | repoErr (e : RepoErr)
  | sendFailed
deriving Repr, DecidableEq

/-- Embeds `auth.service.Register` (internal/usecase/auth): hash the password,
create the user unverified, create a verification record, send the raw code.
The effectful draws are passed in: `newUserId` for `uuid.New()`, `verifId` for
the BIGSERIAL id, `code` for the generated numeric code, and `sendOk` for the
outcome of the email collaborator. The delivery failure is returned after the
user and the record were stored; nothing is rolled back. -/
def Register (now ttl maxAttempts : Int) (newUserId verifId : Nat) (code : String)
    (sendOk : Bool) (email rawPassword username : String) (st : Store) :
    Except AuthErr User × Store :=
  if email == "" || rawPassword == "" || username == "" then
    (.error .argRequired, st)
  else
    let user : User :=
      { id := newUserId
        email := email
        passwordHash := bcryptHash rawPassword
        username := username
        role := "user"
        trainingLevel := "beginner"
        isEmailVerified := false
        updatedAt := now
        deletedAt := none }
    match createUser st user with
    | .error e => (.error (.repoErr e), st)
    | .ok st1 =>
      let v : EmailVerification :=
        { id := verifId
          userId := user.id
          codeHash := bcryptHash code
          expiresAt := now + ttl
          attempts := 0
          maxAttempts := maxAttempts
          createdAt := now
          newEmail := none }
      let st2 := createVerif st1 v
      if sendOk then (.ok user, st2) else (.error .sendFailed, st2)

/-- Embeds lines 486-529 of `auth.service.VerifyEmail`: the part that runs once the
user and the active record were loaded. `v` is the in-memory record the caller
starts with; `st` is the store at the time this step runs (a concurrent request
may already have committed an increment after `v` was read). On a hash mismatch
the code increments in the store (ignoring the error, as the source does) but
decides the exceeded threshold from `v.attempts + 1` — the pre-increment
in-memory copy. -/
def verifyEmailCheckAndFinish (cfg : JWTConfig) (now : Int) (jti : String)
    (user : User) (v : EmailVerification) (code : String) (st : Store) :
    Except AuthErr (User × SignedToken × SignedToken) × Store :=
  if now > v.expiresAt then
    (.error .verificationCodeNotFound, deleteVerifsByUserID st user.id)
  else if !(passwordCompare v.codeHash code) then
    let newAttempts := v.attempts + 1
    let st1 := (incrementAttempts st v.id).getD st
    if newAttempts ≥ v.maxAttempts then
      (.error .verificationAttemptsExceeded, deleteVerifsByUserID st1 user.id)
    else
      (.error .verificationCodeInvalid, st1)
  else
    let u2 : User := { user with isEmailVerified := true, updatedAt := now }
    match updateUser st u2 with
    | .error e => (.error (.repoErr e), st)
    | .ok st1 =>
      let st2 := deleteVerifsByUserID st1 u2.id
      (.ok (u2, GenerateAccessToken cfg now u2, GenerateRefreshToken cfg now jti u2), st2)

/-- Embeds `auth.service.VerifyEmail` (internal/usecase/auth): load the user by
email, reject if already verified, load the active record, then run
`verifyEmailCheckAndFinish` on the record just read. -/
def VerifyEmail (cfg : JWTConfig) (now : Int) (jti : String) (email code : String)
    (st : Store) : Except AuthErr (User × SignedToken × SignedToken) × Store :=
  if email == "" || code == "" then
    (.error .argRequired, st)
  else
    match getUserByEmail st email with
    | none => (.error (.repoErr .notFound), st)
    | some user =>
      if user.isEmailVerified then
        (.error .emailAlreadyVerified, st)
      else
        match getActiveByUserID st now user.id with
        | none => (.error .verificationCodeNotFound, st)
        | some v => verifyEmailCheckAndFinish cfg now jti user v code st

/-- Embeds `auth.service.Login` (internal/usecase/auth): unknown email and wrong
password both map to `ErrInvalidCredentials`; the verified-email check runs only
after the password compares equal. Login does not write to the store. -/
def Login (cfg : JWTConfig) (now : Int) (jti : String) (email rawPassword : String)
    (st : Store) : Except AuthErr (User × SignedToken × SignedToken) :=
  if email == "" || rawPassword == "" then
    .error .argRequired
  else
    match getUserByEmail st email with
    | none => .error .invalidCredentials
    | some user =>
      if !(passwordCompare user.passwordHash rawPassword) then
        .error .invalidCredentials
      else if !user.isEmailVerified then
        .error .emailNotVerified
      else
        .ok (user, GenerateAccessToken cfg now user, GenerateRefreshToken cfg now jti user)

/-- Embeds `auth.service.Refresh` (internal/usecase/auth): any parse failure maps
to `ErrInvalidRefreshToken`; `ErrNotFound` on the user lookup and a soft-deleted
user map to `ErrInvalidRefreshToken`; an unverified email to `ErrEmailNotVerified`;
otherwise a freshly minted pair is returned. The token is the parsed form of the
input string; the `uuid.Parse` of the `sub` claim is the identity here because
claims carry the typed id. -/
def Refresh (cfg : JWTConfig) (now : Int) (newJti : String) (tok : SignedToken)
    (st : Store) : Except AuthErr (User × SignedToken × SignedToken) :=
  match ParseRefreshToken cfg now tok with
  | .error _ => .error .invalidRefreshToken
  | .ok claims =>
    match getUserByID st claims.userId with
    | none => .error .invalidRefreshToken
    | some user =>
      if user.deletedAt.isSome then
        .error .invalidRefreshToken
      else if !user.isEmailVerified then
        .error .emailNotVerified
      else
        .ok (user, GenerateAccessToken cfg now user, GenerateRefreshToken cfg now newJti user)

/-- Embeds `user.service.createAndSendEmailChangeCode` (internal/usecase/user):
generate and hash a code, store an email-change record (`newEmail` set), send the
raw code to the new address. The code draw and the delivery outcome are passed in. -/
def createAndSendEmailChangeCode (now ttl maxAttempts : Int) (verifId : Nat)
    (code : String) (sendOk : Bool) (uid : Nat) (newEmail : String) (st : Store) :
    Except AuthErr Unit × Store :=
  let v : EmailVerification :=
    { id := verifId
      userId := uid
      codeHash := bcryptHash code
      expiresAt := now + ttl
      attempts := 0
      maxAttempts := maxAttempts
      createdAt := now
      newEmail := some newEmail }
  let st1 := createVerif st v
  if sendOk then (.ok (), st1) else (.error .sendFailed, st1)

/-- Embeds `user.service.RequestEmailChange` (internal/usecase/user): rejects an
empty or same-as-current email, rejects a new email owned by another account
(`ErrEmailExists`), deletes the prior email-change records, then creates and
sends a fresh code. -/
def RequestEmailChange (now ttl maxAttempts : Int) (verifId : Nat) (code : String)
    (sendOk : Bool) (uid : Nat) (newEmail : String) (st : Store) :
    Except AuthErr Unit × Store :=
  if newEmail == "" then
    (.error .argRequired, st)
  else
    match getUserByID st uid with
    | none => (.error (.repoErr .notFound), st)
    | some user =>
      if user.email == newEmail then
        (.error .emailSameAsCurrent, st)
      else
        match getUserByEmail st newEmail with
        | some existing =>
          if existing.id ≠ uid then
            (.error (.repoErr .emailExists), st)
          else
            createAndSendEmailChangeCode now ttl maxAttempts verifId code sendOk uid
              newEmail (deleteEmailChangeByUserID st uid)
        | none =>
          createAndSendEmailChangeCode now ttl maxAttempts verifId code sendOk uid
            newEmail (deleteEmailChangeByUserID st uid)

/-- Embeds the apply step of `user.service.VerifyEmailChange`: update the user's
email, set the verified flag, persist, and delete the email-change records. -/
def verifyEmailChangeApply (now : Int) (uid : Nat) (user : User) (newEmail : String)
    (st : Store) : Except AuthErr User × Store :=
  let u2 : User := { user with email := newEmail, isEmailVerified := true, updatedAt := now }
  match updateUser st u2 with
  | .error e => (.error (.repoErr e), st)
  | .ok st1 => (.ok u2, deleteEmailChangeByUserID st1 uid)

/-- The still-free re-check: another account owning the target email at verify
time deletes the pending records and fails `ErrEmailExists`; otherwise the
update is applied. -/
def verifyEmailChangeAfterSuccess (now : Int) (uid : Nat) (user : User)
    (newEmail : String) (st : Store) : Except AuthErr User × Store :=
  match getUserByEmail st newEmail with
  | some existing =>
    if existing.id ≠ uid then
      (.error (.repoErr .emailExists), deleteEmailChangeByUserID st uid)
    else
      verifyEmailChangeApply now uid user newEmail st
  | none =>
    verifyEmailChangeApply now uid user newEmail st

/-- Embeds `user.service.VerifyEmailChange` (internal/usecase/user): load the user
and the active email-change record, delegate to the engine `VerifyCode`, map its
result (deleting the pending records on `Expired` and `AttemptsExceeded`), and on
`Success` run the re-check-and-apply tail. -/
def VerifyEmailChange (now : Int) (uid : Nat) (code : String) (st : Store) :
    Except AuthErr User × Store :=
  if code == "" then
    (.error .argRequired, st)
  else
    match getUserByID st uid with
    | none => (.error (.repoErr .notFound), st)
    | some user =>
      match getActiveEmailChangeByUserID st now uid with
      | none => (.error .verificationCodeNotFound, st)
      | some v =>
        match v.newEmail with
        | none => (.error .notEmailChangeCode, st)
        | some _ =>
          match VerifyCode now v code st with
          | none => (.error (.repoErr .notFound), st)
          | some (result, updated, st1) =>
            match result with
            | .expired =>
              (.error .verificationCodeNotFound, deleteEmailChangeByUserID st1 uid)
            | .attemptsExceeded =>
              (.error .verificationAttemptsExceeded, deleteEmailChangeByUserID st1 uid)
            | .codeInvalid =>
              (.error .verificationCodeInvalid, st1)
            | .success =>
              match updated.bind (fun uv => uv.newEmail) with
              | none => (.error .notEmailChangeCode, st1)
              | some tgt => verifyEmailChangeAfterSuccess now uid user tgt st1

/-- Error signals of the current auth usecase `Register` duplicate checks. -/
inductive RegisterErr
  | emailExists
  | emailUnverifiedExists
  | usernameExists
deriving Repr, DecidableEq

/-- Modelled from the spec: the duplicate checks of the *current*
`internal/usecase/auth` `Register` are missing from the provided sources — the
revision under `src/` delegates duplicate detection to the store and defines no
`ErrEmailUnverifiedExists`, while its caller `internal/handler/auth/handler.go`
branches on `authuc.ErrEmailUnverifiedExists`, which no file under `src/`
declares. Spec §4.5: Register "rejects if email belongs to an existing
*verified* account (`EmailExists`) or to an existing *unverified* account
(`EmailUnverifiedExists` — distinct signal...), or if username is taken
(`UsernameExists`)". -/
def registerDuplicateCheck (st : Store) (email username : String) :
    Option RegisterErr :=
  match getUserByEmail st email with
  | some u => if u.isEmailVerified then some .emailExists else some .emailUnverifiedExists
  | none =>
    match getUserByUsername st username with
    | some _ => some .usernameExists
    | none => none

/-! Shared lemmas about the store operations. -/

/-- A user returned by the active-row lookup by id is not soft-deleted. -/
theorem getUserByID_not_deleted (st : Store) (uid : Nat) (u : User)
    (h : getUserByID st uid = some u) : u.deletedAt = none := by
  unfold getUserByID at h
  have hp := List.find?_some h
  simp [isActiveUser, Option.isNone_iff_eq_none] at hp
  exact hp.1

/-- A record returned by the active email-change lookup satisfies the query's
filters: it belongs to the user, targets a new email, and is not expired. -/
theorem getActiveEmailChange_filters (st : Store) (now : Int) (uid : Nat)
    (v : EmailVerification) (h : getActiveEmailChangeByUserID st now uid = some v) :
    v.userId = uid ∧ v.newEmail.isSome = true ∧ now < v.expiresAt := by
  unfold getActiveEmailChangeByUserID at h
  have hp := List.find?_some h
  simp at hp
  exact ⟨hp.1.1, hp.1.2, hp.2⟩

/-- After `deleteVerifsByUserID` the store holds no record of the user. -/
theorem deleteVerifs_clears_user (st : Store) (uid : Nat) :
    ((deleteVerifsByUserID st uid).verifs.any fun v => v.userId == uid) = false := by
  simp [deleteVerifsByUserID]

/-- After `deleteEmailChangeByUserID` the store holds no email-change record of
the user. -/
theorem deleteEmailChange_clears_user (st : Store) (uid : Nat) :
    ((deleteEmailChangeByUserID st uid).verifs.any
        fun v => v.userId == uid && v.newEmail.isSome) = false := by
  simp [deleteEmailChangeByUserID]
  intro v _ hv
  rcases hv with hne | hnone
  · intro hid
    exact absurd hid hne
  · intro _
    exact hnone

/-- A record returned by the active registration-email lookup satisfies the
query's filters: it belongs to the user, has no target email, and is not
expired. -/
theorem getActiveByUserID_filters (st : Store) (now : Int) (uid : Nat)
    (v : EmailVerification) (h : getActiveByUserID st now uid = some v) :
    v.userId = uid ∧ v.newEmail = none ∧ now < v.expiresAt := by
  unfold getActiveByUserID at h
  have hp := List.find?_some h
  simp [Option.isNone_iff_eq_none] at hp
  exact ⟨hp.1.1, hp.2, hp.1.2⟩

/-- The user found by an active-row email lookup is an active member of the
table and satisfies the filters. -/
theorem getUserByEmail_spec (st : Store) (email : String) (u : User)
    (h : getUserByEmail st email = some u) :
    u ∈ st.users ∧ u.deletedAt = none ∧ u.email = email := by
  unfold getUserByEmail at h
  refine ⟨List.mem_of_find?_eq_some h, ?_⟩
  have hp := List.find?_some h
  simp [isActiveUser, Option.isNone_iff_eq_none] at hp
  exact hp

/-- Replacing every row of a given id by an active row of that id makes the
active-row id lookup return the replacement, provided a row with the id was
present. -/
theorem find?_id_after_update (l : List User) (uid : Nat) (u2 : User)
    (hid : u2.id = uid) (hact : u2.deletedAt = none)
    (hmem : ∃ w, w ∈ l ∧ w.id = uid) :
    ((l.map fun w => if w.id == uid then u2 else w).find?
        fun w => isActiveUser w && w.id == uid) = some u2 := by
  induction l with
  | nil =>
    rcases hmem with ⟨w, hw, _⟩
    cases hw
  | cons a t ih =>
    by_cases ha : a.id = uid
    · simp [ha, isActiveUser, hact, hid]
    · rcases hmem with ⟨w, hw, hwid⟩
      rcases List.mem_cons.mp hw with heq | hwt
      · exact absurd (heq ▸ hwid) ha
      · have hhead : (if (a.id == uid) = true then u2 else a) = a := by simp [ha]
        simp only [List.map_cons, hhead]
        rw [List.find?_cons_of_neg _ (by simp [ha])]
        exact ih ⟨w, hwt, hwid⟩

/-! Concrete fixtures for the closed witnesses. -/

/-- A JWT configuration with distinct access/refresh secrets. -/
def cfgW : JWTConfig :=
  { accessSecret := "as", refreshSecret := "rs", accessTTL := 900,
    refreshTTL := 604800, issuer := "workout-app" }

/-- A verified active user. -/
def aliceW : User :=
  { id := 1, email := "a@x", passwordHash := bcryptHash "pw1", username := "alice",
    role := "user", trainingLevel := "beginner", isEmailVerified := true,
    updatedAt := 0, deletedAt := none }

/-- An unverified active user. -/
def bobW : User :=
  { id := 2, email := "b@x", passwordHash := bcryptHash "pw2", username := "bob",
    role := "user", trainingLevel := "beginner", isEmailVerified := false,
    updatedAt := 0, deletedAt := none }

/-- A store holding the two fixture users and no verification records. -/
def storeW : Store := { users := [aliceW, bobW], verifs := [] }

/-! Claims. -/

/-- Claim C3: for every verification record whose `expires_at` is earlier than the
current time, the engine's `check` (`verification.VerifyCode`) returns `Expired`
regardless of whether the submitted code matches the stored hash, and the store
is returned unchanged — in particular the attempts counter is not incremented. -/
theorem verifyCode_expired_short_circuit (now : Int) (v : EmailVerification)
    (code : String) (st : Store) (h : v.expiresAt < now) :
    VerifyCode now v code st = some (.expired, none, st) := by
  simp [VerifyCode, h]

/-- Witness for C3: an expired record rejected as `Expired` even though the
submitted code is the correct one, with the store unchanged. -/
theorem verifyCode_expired_short_circuit_witness :
    (10 : Int) < 20 ∧
      VerifyCode 20 ⟨1, 2, bcryptHash "111111", 10, 0, 5, 0, none⟩ "111111"
          { users := [], verifs := [⟨1, 2, bcryptHash "111111", 10, 0, 5, 0, none⟩] } =
        some (.expired, none,
          { users := [], verifs := [⟨1, 2, bcryptHash "111111", 10, 0, 5, 0, none⟩] }) :=
  ⟨by decide,
   verifyCode_expired_short_circuit 20 ⟨1, 2, bcryptHash "111111", 10, 0, 5, 0, none⟩
     "111111" _ (by decide)⟩

/-- Claim C6: `Login` returns the same `ErrInvalidCredentials` value in both
failure cases — when no user exists with the email and when the user exists but
the submitted password does not match the stored hash — so the two cases are
indistinguishable to the caller. -/
theorem login_uniform_invalid_credentials (cfg : JWTConfig) (now : Int)
    (jti email pw : String) (st : Store) (hemail : email ≠ "") (hpw : pw ≠ "") :
    (getUserByEmail st email = none →
        Login cfg now jti email pw st = .error .invalidCredentials) ∧
      (∀ u, getUserByEmail st email = some u →
        passwordCompare u.passwordHash pw = false →
        Login cfg now jti email pw st = .error .invalidCredentials) := by
  constructor
  · intro h
    simp [Login, h, hemail, hpw]
  · intro u hu hcmp
    simp [Login, hu, hemail, hpw, hcmp]

/-- Witness for C6: both the unknown-email case and the wrong-password case
produce the identical `ErrInvalidCredentials` result on a concrete store. -/
theorem login_uniform_invalid_credentials_witness :
    Login cfgW 0 "j" "z@x" "pw" storeW = .error .invalidCredentials ∧
      Login cfgW 0 "j" "b@x" "bad" storeW = .error .invalidCredentials :=
  ⟨(login_uniform_invalid_credentials cfgW 0 "j" "z@x" "pw" storeW (by decide)
      (by decide)).1 (by decide),
   (login_uniform_invalid_credentials cfgW 0 "j" "b@x" "bad" storeW (by decide)
      (by decide)).2 bobW (by decide) (by decide)⟩

/-- Claim C10: `Login` reveals `ErrEmailNotVerified` only to a caller presenting
the correct password — for an unverified user, a matching password yields
`ErrEmailNotVerified` and a mismatching one yields `ErrInvalidCredentials`. -/
theorem login_emailNotVerified_needs_password (cfg : JWTConfig) (now : Int)
    (jti email pw : String) (st : Store) (u : User)
    (hemail : email ≠ "") (hpw : pw ≠ "")
    (hu : getUserByEmail st email = some u) (hver : u.isEmailVerified = false) :
    (passwordCompare u.passwordHash pw = true →
        Login cfg now jti email pw st = .error .emailNotVerified) ∧
      (passwordCompare u.passwordHash pw = false →
        Login cfg now jti email pw st = .error .invalidCredentials) := by
  constructor
  · intro hcmp
    simp [Login, hu, hemail, hpw, hcmp, hver]
  · intro hcmp
    simp [Login, hu, hemail, hpw, hcmp]

/-- Witness for C10: on a concrete unverified user, the correct password yields
`ErrEmailNotVerified` and a wrong password yields `ErrInvalidCredentials`. -/
theorem login_emailNotVerified_needs_password_witness :
    Login cfgW 0 "j" "b@x" "pw2" storeW = .error .emailNotVerified ∧
      Login cfgW 0 "j" "b@x" "bad" storeW = .error .invalidCredentials :=
  ⟨(login_emailNotVerified_needs_password cfgW 0 "j" "b@x" "pw2" storeW bobW
      (by decide) (by decide) (by decide) (by decide)).1 (by decide),
   (login_emailNotVerified_needs_password cfgW 0 "j" "b@x" "bad" storeW bobW
      (by decide) (by decide) (by decide) (by decide)).2 (by decide)⟩

/-- Claim C5: for every access token produced by `GenerateAccessToken` for a valid
user, `ParseAccessToken` at any time before its expiry succeeds with claims whose
user id and subject equal the user's id; and every token signed with the refresh
secret is rejected by `ParseAccessToken` (`SignatureInvalid`), given that the
access and refresh secrets differ. -/
theorem access_roundtrip_and_secret_separation (cfg : JWTConfig) (u : User)
    (t tv : Int) (tok : SignedToken)
    (hexp : tv < t + cfg.accessTTL)
    (hsec : cfg.accessSecret ≠ cfg.refreshSecret)
    (hsig : tok.secret = cfg.refreshSecret) :
    ParseAccessToken cfg tv (GenerateAccessToken cfg t u) =
        .ok (GenerateAccessToken cfg t u).claims ∧
      (GenerateAccessToken cfg t u).claims.userId = u.id ∧
      (GenerateAccessToken cfg t u).claims.subject = u.id ∧
      ParseAccessToken cfg tv tok = .error .signatureInvalid := by
  have hne : tok.secret ≠ cfg.accessSecret := by
    rw [hsig]
    exact Ne.symm hsec
  refine ⟨?_, rfl, rfl, ?_⟩
  · simp [ParseAccessToken, parseToken, GenerateAccessToken, hexp]
  · rcases halg : tok.alg with _ | _
    · simp [ParseAccessToken, parseToken, halg, hne]
    · simp [ParseAccessToken, parseToken, halg]

/-- Witness for C5: a concrete round trip on the fixture configuration, and the
rejection of a concrete refresh-signed token. -/
theorem access_roundtrip_and_secret_separation_witness :
    ParseAccessToken cfgW 10 (GenerateAccessToken cfgW 0 aliceW) =
        .ok (GenerateAccessToken cfgW 0 aliceW).claims ∧
      (GenerateAccessToken cfgW 0 aliceW).claims.userId = aliceW.id ∧
      (GenerateAccessToken cfgW 0 aliceW).claims.subject = aliceW.id ∧
      ParseAccessToken cfgW 10 (GenerateRefreshToken cfgW 0 "j" aliceW) =
        .error .signatureInvalid :=
  access_roundtrip_and_secret_separation cfgW aliceW 0 10
    (GenerateRefreshToken cfgW 0 "j" aliceW) (by decide) (by decide) (by decide)

/-- The user the C1 scenario verifies: unverified, active. -/
def c1User : User :=
  { id := 7, email := "c@x", passwordHash := bcryptHash "pw7", username := "carl",
    role := "user", trainingLevel := "beginner", isEmailVerified := false,
    updatedAt := 0, deletedAt := none }

/-- The in-memory copy of the verification record the `VerifyEmail` request
started with: 3 attempts used, 5 allowed, not expired. -/
def c1Snapshot : EmailVerification :=
  { id := 1, userId := 7, codeHash := bcryptHash "111111", expiresAt := 100,
    attempts := 3, maxAttempts := 5, createdAt := 0, newEmail := none }

/-- The committed state of the same record at check time: a concurrent failed
check has already been counted, so the store holds 4 attempts. -/
def c1Store : Store :=
  { users := [c1User]
    verifs := [{ id := 1, userId := 7, codeHash := bcryptHash "111111", expiresAt := 100,
                 attempts := 4, maxAttempts := 5, createdAt := 0, newEmail := none }] }

/-- Claim C1 is violated by `auth.service.VerifyEmail` (usecase.go lines 492-505):
on a failed check it decides the exceeded threshold from `v.Attempts + 1`, the
in-memory pre-increment copy, not from a post-increment store read. Concretely:
with the snapshot at 3 attempts while the store already holds 4 committed
attempts (max 5), a wrong code makes `VerifyEmail`'s check step return
`VerificationCodeInvalid` — deciding from 3 + 1 < 5 — although the committed
post-increment value it just wrote is 5 ≥ 5; the engine `verification.VerifyCode`
on the same input re-reads the store and correctly decides `AttemptsExceeded`. -/
theorem verifyEmail_decides_from_stale_snapshot :
    (verifyEmailCheckAndFinish cfgW 50 "j" c1User c1Snapshot "000000" c1Store).1 =
        .error .verificationCodeInvalid ∧
      ((getVerifByID
          (verifyEmailCheckAndFinish cfgW 50 "j" c1User c1Snapshot "000000" c1Store).2
          1).map EmailVerification.attempts = some 5) ∧
      c1Snapshot.maxAttempts = 5 ∧
      ((VerifyCode 50 c1Snapshot "000000" c1Store).map Prod.fst =
        some VerificationResult.attemptsExceeded) :=
  ⟨rfl, rfl, rfl, rfl⟩

/-- Claim C2 (against the spec-modelled `registerDuplicateCheck`): Register fails
with the distinct `EmailUnverifiedExists` signal when the email belongs to an
existing unverified account, with `EmailExists` when it belongs to a verified
account, with `UsernameExists` when the username is taken, and the unverified
and verified email signals are different values. -/
theorem register_duplicate_signals (st : Store) (email username : String) :
    (∀ u, getUserByEmail st email = some u → u.isEmailVerified = true →
        registerDuplicateCheck st email username = some .emailExists) ∧
      (∀ u, getUserByEmail st email = some u → u.isEmailVerified = false →
        registerDuplicateCheck st email username = some .emailUnverifiedExists) ∧
      (getUserByEmail st email = none →
        ∀ w, getUserByUsername st username = some w →
          registerDuplicateCheck st email username = some .usernameExists) ∧
      RegisterErr.emailUnverifiedExists ≠ RegisterErr.emailExists := by
  refine ⟨?_, ?_, ?_, by decide⟩
  · intro u hu hver
    simp [registerDuplicateCheck, hu, hver]
  · intro u hu hver
    simp [registerDuplicateCheck, hu, hver]
  · intro hnone w hw
    simp [registerDuplicateCheck, hnone, hw]

/-- Witness for C2: on a concrete store with a verified and an unverified account,
the three rejection signals come out distinct as claimed. -/
theorem register_duplicate_signals_witness :
    registerDuplicateCheck storeW "a@x" "newname" = some .emailExists ∧
      registerDuplicateCheck storeW "b@x" "newname" = some .emailUnverifiedExists ∧
      registerDuplicateCheck storeW "z@x" "alice" = some .usernameExists ∧
      RegisterErr.emailUnverifiedExists ≠ RegisterErr.emailExists :=
  ⟨(register_duplicate_signals storeW "a@x" "newname").1 aliceW (by decide) (by decide),
   (register_duplicate_signals storeW "b@x" "newname").2.1 bobW (by decide) (by decide),
   (register_duplicate_signals storeW "z@x" "alice").2.2.1 (by decide) aliceW (by decide),
   (register_duplicate_signals storeW "z@x" "alice").2.2.2⟩

/-- Claim C7: given a refresh token that passes signature and expiry validation,
`Refresh` fails `ErrInvalidRefreshToken` when the referenced user is not found or
is soft-deleted (the active-row lookup excludes soft-deleted users, and an
explicit `IsDeleted` guard also rejects), fails `ErrEmailNotVerified` when the
user's email is unverified, and otherwise returns a newly minted access/refresh
pair for the user. -/
theorem refresh_resolution (cfg : JWTConfig) (now : Int) (newJti : String)
    (tok : SignedToken) (st : Store) (claims : Claims)
    (hparse : ParseRefreshToken cfg now tok = .ok claims) :
    (getUserByID st claims.userId = none →
        Refresh cfg now newJti tok st = .error .invalidRefreshToken) ∧
      ((∀ u ∈ st.users, u.id = claims.userId → u.deletedAt ≠ none) →
        Refresh cfg now newJti tok st = .error .invalidRefreshToken) ∧
      (∀ u, getUserByID st claims.userId = some u → u.isEmailVerified = false →
        Refresh cfg now newJti tok st = .error .emailNotVerified) ∧
      (∀ u, getUserByID st claims.userId = some u → u.isEmailVerified = true →
        Refresh cfg now newJti tok st =
          .ok (u, GenerateAccessToken cfg now u, GenerateRefreshToken cfg now newJti u)) := by
  refine ⟨?_, ?_, ?_, ?_⟩
  · intro h
    simp [Refresh, hparse, h]
  · intro hdel
    have hnone : getUserByID st claims.userId = none := by
      unfold getUserByID
      rw [List.find?_eq_none]
      intro x hx
      simp [isActiveUser, Option.isNone_iff_eq_none]
      intro hdead
      exact fun hid => absurd hdead (hdel x hx hid)
    simp [Refresh, hparse, hnone]
  · intro u hu hver
    have hactive : u.deletedAt = none := getUserByID_not_deleted st claims.userId u hu
    simp [Refresh, hparse, hu, hver, hactive]
  · intro u hu hver
    have hactive : u.deletedAt = none := getUserByID_not_deleted st claims.userId u hu
    simp [Refresh, hparse, hu, hver, hactive]

/-- A refresh token for the C7 witness, minted for a user id (3) that has no
active row in the fixture store. -/
def refreshTokW : SignedToken := GenerateRefreshToken cfgW 0 "jti3"
  { id := 3, email := "d@x", passwordHash := bcryptHash "pw3", username := "dana",
    role := "user", trainingLevel := "beginner", isEmailVerified := true,
    updatedAt := 0, deletedAt := none }

/-- Witness for C7: a concretely valid refresh token whose user is absent from
the store is rejected with `ErrInvalidRefreshToken`, and for present users the
two remaining outcomes are exercised via the fixture store. -/
theorem refresh_resolution_witness :
    Refresh cfgW 10 "j2" refreshTokW storeW = .error .invalidRefreshToken ∧
      Refresh cfgW 10 "j2" (GenerateRefreshToken cfgW 0 "jb" bobW) storeW =
        .error .emailNotVerified ∧
      Refresh cfgW 10 "j2" (GenerateRefreshToken cfgW 0 "ja" aliceW) storeW =
        .ok (aliceW, GenerateAccessToken cfgW 10 aliceW,
          GenerateRefreshToken cfgW 10 "j2" aliceW) :=
  ⟨(refresh_resolution cfgW 10 "j2" refreshTokW storeW
      (GenerateRefreshToken cfgW 0 "jti3"
        { id := 3, email := "d@x", passwordHash := bcryptHash "pw3", username := "dana",
          role := "user", trainingLevel := "beginner", isEmailVerified := true,
          updatedAt := 0, deletedAt := none }).claims rfl).1 (by decide),
   (refresh_resolution cfgW 10 "j2" (GenerateRefreshToken cfgW 0 "jb" bobW) storeW
      (GenerateRefreshToken cfgW 0 "jb" bobW).claims rfl).2.2.1 bobW (by decide) (by decide),
   (refresh_resolution cfgW 10 "j2" (GenerateRefreshToken cfgW 0 "ja" aliceW) storeW
      (GenerateRefreshToken cfgW 0 "ja" aliceW).claims rfl).2.2.2 aliceW (by decide) (by decide)⟩

/-- Claim C9: when email delivery fails during `Register` (after the user and the
verification record were stored), `Register` returns an error but neither the
created unverified user nor the verification record is removed — the lookup by
email in the final store finds the new unverified user, and the stored record is
still present. -/
theorem register_no_rollback_on_send_failure (now ttl maxA : Int) (nid vid : Nat)
    (code email pw username : String) (st : Store)
    (hemail : email ≠ "") (hpw : pw ≠ "") (husername : username ≠ "")
    (hfreeEmail : (st.users.any fun w => isActiveUser w && w.email == email) = false)
    (hfreeName : (st.users.any fun w => isActiveUser w && w.username == username) = false) :
    (Register now ttl maxA nid vid code false email pw username st).1 =
        .error .sendFailed ∧
      getUserByEmail (Register now ttl maxA nid vid code false email pw username st).2
          email =
        some { id := nid, email := email, passwordHash := bcryptHash pw,
               username := username, role := "user", trainingLevel := "beginner",
               isEmailVerified := false, updatedAt := now, deletedAt := none } ∧
      ({ id := vid, userId := nid, codeHash := bcryptHash code, expiresAt := now + ttl,
         attempts := 0, maxAttempts := maxA, createdAt := now,
         newEmail := none } : EmailVerification) ∈
        (Register now ttl maxA nid vid code false email pw username st).2.verifs := by
  have hfind : (st.users.find? fun w => isActiveUser w && w.email == email) = none := by
    rw [List.find?_eq_none]
    intro x hx
    have := List.any_eq_false.mp hfreeEmail x hx
    simpa using this
  have hrun : Register now ttl maxA nid vid code false email pw username st =
      (.error .sendFailed,
        { users := st.users ++
            [{ id := nid, email := email, passwordHash := bcryptHash pw,
               username := username, role := "user", trainingLevel := "beginner",
               isEmailVerified := false, updatedAt := now, deletedAt := none }],
          verifs := st.verifs ++
            [{ id := vid, userId := nid, codeHash := bcryptHash code,
               expiresAt := now + ttl, attempts := 0, maxAttempts := maxA,
               createdAt := now, newEmail := none }] }) := by
    simp [Register, createUser, createVerif, hemail, hpw, husername, hfreeEmail, hfreeName]
  refine ⟨by rw [hrun], ?_, by rw [hrun]; simp⟩
  rw [hrun]
  unfold getUserByEmail
  rw [List.find?_append, hfind, Option.none_or, List.find?_cons_of_pos _ (by simp [isActiveUser])]

/-- Witness for C9: a concrete registration into the fixture store whose email
send fails, leaving the unverified user and the record behind. -/
theorem register_no_rollback_on_send_failure_witness :
    (Register 0 900 5 9 4 "123456" false "n@x" "pw9" "nina" storeW).1 =
        .error .sendFailed ∧
      getUserByEmail (Register 0 900 5 9 4 "123456" false "n@x" "pw9" "nina" storeW).2
          "n@x" =
        some { id := 9, email := "n@x", passwordHash := bcryptHash "pw9",
               username := "nina", role := "user", trainingLevel := "beginner",
               isEmailVerified := false, updatedAt := 0, deletedAt := none } ∧
      ({ id := 4, userId := 9, codeHash := bcryptHash "123456", expiresAt := 900,
         attempts := 0, maxAttempts := 5, createdAt := 0,
         newEmail := none } : EmailVerification) ∈
        (Register 0 900 5 9 4 "123456" false "n@x" "pw9" "nina" storeW).2.verifs :=
  register_no_rollback_on_send_failure 0 900 5 9 4 "123456" "n@x" "pw9" "nina" storeW
    (by decide) (by decide) (by decide) (by decide) (by decide)

/-- Claim C4: `VerifyEmail` called with the correct code for an unverified user
holding an active non-expired verification record sets the user's email-verified
flag, persists the update (the id lookup in the final store returns the verified
user), deletes all verification records for the user, and returns the user
together with an access/refresh token pair. The two `any = false` hypotheses say
no *other* active account shares the email or username, so the persist step's
conditional update matches. -/
theorem verifyEmail_success (cfg : JWTConfig) (now : Int) (jti email code : String)
    (st : Store) (u : User) (v : EmailVerification)
    (hemail : email ≠ "") (hcode : code ≠ "")
    (hu : getUserByEmail st email = some u)
    (hver : u.isEmailVerified = false)
    (hv : getActiveByUserID st now u.id = some v)
    (hmatch : passwordCompare v.codeHash code = true)
    (hmailfree : (st.users.any fun w =>
        isActiveUser w && !(w.id == u.id) && w.email == u.email) = false)
    (hnamefree : (st.users.any fun w =>
        isActiveUser w && !(w.id == u.id) && w.username == u.username) = false) :
    (VerifyEmail cfg now jti email code st).1 =
        .ok ({ u with isEmailVerified := true, updatedAt := now },
          GenerateAccessToken cfg now { u with isEmailVerified := true, updatedAt := now },
          GenerateRefreshToken cfg now jti
            { u with isEmailVerified := true, updatedAt := now }) ∧
      getUserByID (VerifyEmail cfg now jti email code st).2 u.id =
        some { u with isEmailVerified := true, updatedAt := now } ∧
      ((VerifyEmail cfg now jti email code st).2.verifs.any
        fun r => r.userId == u.id) = false := by
  have hus := getUserByEmail_spec st email u hu
  have hvf := getActiveByUserID_filters st now u.id v hv
  have hnexp : ¬ (now > v.expiresAt) := not_lt.mpr (le_of_lt hvf.2.2)
  have hrow : (st.users.any fun w => isActiveUser w && w.id == u.id) = true :=
    List.any_eq_true.mpr ⟨u, hus.1, by simp [isActiveUser, hus.2.1]⟩
  have hrun : VerifyEmail cfg now jti email code st =
      (.ok ({ u with isEmailVerified := true, updatedAt := now },
          GenerateAccessToken cfg now { u with isEmailVerified := true, updatedAt := now },
          GenerateRefreshToken cfg now jti
            { u with isEmailVerified := true, updatedAt := now }),
        deleteVerifsByUserID
          { st with users := st.users.map fun w =>
              if w.id == u.id then { u with isEmailVerified := true, updatedAt := now }
              else w }
          u.id) := by
    simp [VerifyEmail, hemail, hcode, hu, hver, hv, verifyEmailCheckAndFinish, hnexp,
      hmatch, updateUser, hrow, hmailfree, hnamefree]
  refine ⟨by rw [hrun], ?_, by rw [hrun]; exact deleteVerifs_clears_user _ u.id⟩
  rw [hrun]
  exact find?_id_after_update st.users u.id _ rfl hus.2.1 ⟨u, hus.1, rfl⟩

/-- An unexpired verification record for the fixture user `bobW` whose code is
`222222`. -/
def verifW : EmailVerification :=
  { id := 11, userId := 2, codeHash := bcryptHash "222222", expiresAt := 1000,
    attempts := 0, maxAttempts := 5, createdAt := 0, newEmail := none }

/-- The fixture store with `bobW`'s pending verification record. -/
def storeWithVerifW : Store := { users := [aliceW, bobW], verifs := [verifW] }

/-- Witness for C4: verifying `bobW` with the correct code on a concrete store
returns the verified user with a token pair, persists the flag, and clears the
records. -/
theorem verifyEmail_success_witness :
    (VerifyEmail cfgW 5 "j" "b@x" "222222" storeWithVerifW).1 =
        .ok ({ bobW with isEmailVerified := true, updatedAt := 5 },
          GenerateAccessToken cfgW 5 { bobW with isEmailVerified := true, updatedAt := 5 },
          GenerateRefreshToken cfgW 5 "j"
            { bobW with isEmailVerified := true, updatedAt := 5 }) ∧
      getUserByID (VerifyEmail cfgW 5 "j" "b@x" "222222" storeWithVerifW).2 bobW.id =
        some { bobW with isEmailVerified := true, updatedAt := 5 } ∧
      ((VerifyEmail cfgW 5 "j" "b@x" "222222" storeWithVerifW).2.verifs.any
        fun r => r.userId == bobW.id) = false :=
  verifyEmail_success cfgW 5 "j" "b@x" "222222" storeWithVerifW bobW verifW
    (by decide) (by decide) (by decide) (by decide) (by decide) (by decide)
    (by decide) (by decide)

/-- Claim C8: the email-change flow rejects a new email equal to the current one
(`ErrEmailSameAsCurrent`) and a new email owned by another account
(`ErrEmailExists`) at request time, and re-checks the ownership collision at
verify time: when another account owns the target email at verify time,
`VerifyEmailChange` fails with the `EmailExists` conflict and deletes the
pending email-change records. -/
theorem email_change_collision_checks (now ttl maxA : Int) (vid : Nat)
    (gen : String) (sendOk : Bool) (uid : Nat) (newEmail code : String) (st : Store) :
    (∀ u, newEmail ≠ "" → getUserByID st uid = some u → u.email = newEmail →
        (RequestEmailChange now ttl maxA vid gen sendOk uid newEmail st).1 =
          .error .emailSameAsCurrent) ∧
      (∀ u ex, newEmail ≠ "" → getUserByID st uid = some u → u.email ≠ newEmail →
        getUserByEmail st newEmail = some ex → ex.id ≠ uid →
        (RequestEmailChange now ttl maxA vid gen sendOk uid newEmail st).1 =
          .error (.repoErr .emailExists)) ∧
      (∀ u v tgt ex, code ≠ "" → getUserByID st uid = some u →
        getActiveEmailChangeByUserID st now uid = some v →
        v.newEmail = some tgt → passwordCompare v.codeHash code = true →
        getUserByEmail st tgt = some ex → ex.id ≠ uid →
        (VerifyEmailChange now uid code st).1 = .error (.repoErr .emailExists) ∧
          ((VerifyEmailChange now uid code st).2.verifs.any
            fun r => r.userId == uid && r.newEmail.isSome) = false) := by
  refine ⟨?_, ?_, ?_⟩
  · intro u hne hu hsame
    simp [RequestEmailChange, hne, hu, hsame]
  · intro u ex hne hu hdiff hex hexid
    simp [RequestEmailChange, hne, hu, hdiff, hex, hexid]
  · intro u v tgt ex hcode hu hv hnew hmatch hex hexid
    have hvf := getActiveEmailChange_filters st now uid v hv
    have hnexp : ¬ (now > v.expiresAt) := not_lt.mpr (le_of_lt hvf.2.2)
    have hrun : VerifyEmailChange now uid code st =
        (.error (.repoErr .emailExists), deleteEmailChangeByUserID st uid) := by
      simp [VerifyEmailChange, hcode, hu, hv, hnew, VerifyCode, hnexp, hmatch,
        verifyEmailChangeAfterSuccess, hex, hexid]
    exact ⟨by rw [hrun], by rw [hrun]; exact deleteEmailChange_clears_user st uid⟩

/-- The fixture user requesting an email change (id 5). -/
def carolW : User :=
  { id := 5, email := "e5@x", passwordHash := bcryptHash "pw5", username := "carol",
    role := "user", trainingLevel := "beginner", isEmailVerified := true,
    updatedAt := 0, deletedAt := none }

/-- A pending email-change record of `carolW` targeting `a@x` — an address that
the fixture store's `aliceW` owns. -/
def changeVerifW : EmailVerification :=
  { id := 12, userId := 5, codeHash := bcryptHash "333333", expiresAt := 1000,
    attempts := 0, maxAttempts := 5, createdAt := 0, newEmail := some "a@x" }

/-- The fixture store for the email-change scenarios. -/
def storeChangeW : Store :=
  { users := [aliceW, bobW, carolW], verifs := [changeVerifW] }

/-- Witness for C8: on a concrete store, the same-as-current and owned-by-another
rejections fire at request time, and the verify-time re-check fails `EmailExists`
and clears the pending records. -/
theorem email_change_collision_checks_witness :
    (RequestEmailChange 5 900 5 13 "444444" true 5 "e5@x" storeChangeW).1 =
        .error .emailSameAsCurrent ∧
      (RequestEmailChange 5 900 5 13 "444444" true 5 "b@x" storeChangeW).1 =
        .error (.repoErr .emailExists) ∧
      (VerifyEmailChange 5 5 "333333" storeChangeW).1 = .error (.repoErr .emailExists) ∧
      ((VerifyEmailChange 5 5 "333333" storeChangeW).2.verifs.any
        fun r => r.userId == 5 && r.newEmail.isSome) = false :=
  ⟨(email_change_collision_checks 5 900 5 13 "444444" true 5 "e5@x" "333333"
      storeChangeW).1 carolW (by decide) (by decide) (by decide),
   (email_change_collision_checks 5 900 5 13 "444444" true 5 "b@x" "333333"
      storeChangeW).2.1 carolW bobW (by decide) (by decide) (by decide) (by decide)
      (by decide),
   ((email_change_collision_checks 5 900 5 13 "444444" true 5 "b@x" "333333"
      storeChangeW).2.2 carolW changeVerifW "a@x" aliceW (by decide) (by decide)
      (by decide) (by decide) (by decide) (by decide) (by decide)).1,
   ((email_change_collision_checks 5 900 5 13 "444444" true 5 "b@x" "333333"
      storeChangeW).2.2 carolW changeVerifW "a@x" aliceW (by decide) (by decide)
      (by decide) (by decide) (by decide) (by decide) (by decide)).2⟩

end WorkoutApp
